import Mathlib

/-!
# Verification of the Gong Call Summary Agent

A shallow embedding of the agent orchestration code (`agent.ts`: the
`prepareCall` hook of the `ToolLoopAgent` and the `runGongAgent` entry
point) together with the pieces of the repository it imports.  Remote
sandbox operations are modelled by an explicit environment of fallible
results (`Env`) and an event trace, so that ordering and propagation
properties of the remote calls can be stated.
-/

/-- A participant entry of the webhook payload (`parties` array).
All three fields are optional in the inbound JSON. -/
structure Party where
  name : Option String
  affiliation : Option String
  title : Option String
  deriving DecidableEq, Repr

/-- Call metadata of the webhook payload (`callData.metaData`).
Fields are optional; `duration` is a number of seconds. -/
structure CallMetaData where
  title : Option String
  scheduled : Option String
  started : Option String
  duration : Option Nat
  system : Option String
  deriving DecidableEq, Repr

/-- `callData` of the webhook payload: metadata plus an optional parties
list (the code guards it with `|| []`). -/
structure CallData where
  metaData : CallMetaData
  parties : Option (List Party)
  deriving DecidableEq, Repr

/-- The inbound Gong webhook payload, as used by the agent code.
The `callData` shape is taken from the accesses in `prepareCall`.
Modelled from the spec: the `transcript` field (the `types` module that
declares `GongWebhookData` is not part of the sources; the spec describes
the payload as carrying a transcript reference whose content may be
absent). -/
structure GongWebhookData where
  callData : CallData
  transcript : Option String
  deriving DecidableEq, Repr

/-- The call options accepted by the agent (`callOptionsSchema`):
the webhook payload and an optional Salesforce account id. -/
structure CallOptions where
  webhookData : GongWebhookData
  sfdcAccountId : Option String
  deriving DecidableEq, Repr

/-- Salesforce section of the configuration (`config.salesforce`). -/
structure SalesforceConfig where
  enabled : Bool
  deriving DecidableEq, Repr

/-- Sandbox section of the configuration (`config.sandbox`); the timeout
is kept in milliseconds (the code converts its string form with `ms`). -/
structure SandboxConfig where
  timeout : Nat
  deriving DecidableEq, Repr

/-- The configuration values read by the agent code (`config.systemPrompt`,
`config.companyName`, `config.salesforce.enabled`, `config.sandbox.timeout`). -/
structure Config where
  systemPrompt : String
  companyName : String
  salesforce : SalesforceConfig
  sandbox : SandboxConfig
  deriving DecidableEq, Repr

/-- One context file written to the sandbox: a relative path and text
content (the pairs accepted by `sandbox.writeFiles`). -/
structure VirtualFile where
  path : String
  content : String
  deriving DecidableEq, Repr

/-- JavaScript `x || fallback` on an optional string: the fallback is used
when the value is absent or empty (both are falsy). -/
def jsOr (v : Option String) (fallback : String) : String :=
  match v with
  | some s => if s = "" then fallback else s
  | none => fallback

/-- JavaScript `Math.round (num / den)` for non-negative operands
(`den > 0`): rounds half away from zero, i.e. `⌊num/den + 1/2⌋`. -/
def mathRound (num den : Nat) : Nat :=
  (2 * num + den) / (2 * den)

/-- The `**Call:**` interpolation: `callMeta.title || 'Untitled Call'`. -/
def renderTitle (m : CallMetaData) : String :=
  jsOr m.title "Untitled Call"

/-- The `**Date:**` interpolation:
`callMeta.scheduled || callMeta.started || 'Unknown'`. -/
def renderDate (m : CallMetaData) : String :=
  jsOr m.scheduled (jsOr m.started "Unknown")

/-- The `**Duration:**` interpolation:
`callMeta.duration ? Math.round(callMeta.duration / 60) + ' minutes' : 'Unknown'`.
A duration of `0` is falsy in JavaScript, so it takes the `'Unknown'` branch. -/
def renderDuration (m : CallMetaData) : String :=
  match m.duration with
  | some d => if d = 0 then "Unknown" else toString (mathRound d 60) ++ " minutes"
  | none => "Unknown"

/-- The `**System:**` interpolation: `callMeta.system || 'Unknown'`. -/
def renderSystem (m : CallMetaData) : String :=
  jsOr m.system "Unknown"

/-- The conditional title suffix of a participant line:
`${p.title ? ` - ${p.title}` : ''}` — empty when the title is absent or
empty (falsy), otherwise ` - title`. -/
def renderTitleSuffix (t : Option String) : String :=
  match t with
  | some s => if s = "" then "" else " - " ++ s
  | none => ""

/-- One participant line:
`- ${p.name || 'Unknown'} (${p.affiliation || 'Unknown'})${p.title ? ` - ${p.title}` : ''}`.
An absent (or empty, hence falsy) title drops the ` - title` suffix. -/
def renderParty (p : Party) : String :=
  "- " ++ jsOr p.name "Unknown" ++ " (" ++ jsOr p.affiliation "Unknown" ++ ")"
    ++ renderTitleSuffix p.title

/-- The participants block: `parties.map(...).join('\n')` over
`options.webhookData.callData.parties || []`. -/
def participantsSection (wd : GongWebhookData) : String :=
  String.intercalate "\n" ((wd.callData.parties.getD []).map renderParty)

/-- The system-instructions template of `prepareCall`, with the file tree
already rendered to a string and the current time (`new Date().toISOString()`)
passed in as `now`. -/
def composeInstructions (cfg : Config) (wd : GongWebhookData)
    (fileTree : String) (now : String) : String :=
  cfg.systemPrompt
    ++ "\n\n## Call Context\n\n**Call:** " ++ renderTitle wd.callData.metaData
    ++ "\n**Date:** " ++ renderDate wd.callData.metaData
    ++ "\n**Duration:** " ++ renderDuration wd.callData.metaData
    ++ "\n**System:** " ++ renderSystem wd.callData.metaData
    ++ "\n\n**Participants:**\n" ++ participantsSection wd
    ++ "\n\n## Filesystem Structure\n```\n" ++ fileTree
    ++ "\n```\n\n## Instructions\n\n1. First, explore the call transcript using the executeCommand tool\n2. Search for key topics, objections, and action items\n3. Analyze how objections were handled\n4. Generate a comprehensive summary\n\n## Metadata\n- Current date: "
    ++ now
    ++ ("\n- Company: " ++ cfg.companyName)

/-- Number of positions of a character list at which the needle occurs. -/
def countOccAux (needle : List Char) : List Char → Nat
  | [] => 0
  | c :: rest => (if needle.isPrefixOf (c :: rest) then 1 else 0) + countOccAux needle rest

/-- Number of occurrences of a substring in a string. -/
def countOccurrences (needle s : String) : Nat :=
  countOccAux needle.data s.data

/-- Modelled from the spec: `generateFilesForSandbox` (the `sandbox-context`
module is not part of the sources).  The Context Builder produces an ordered
list of VirtualFiles — transcript text, participant list, metadata summary,
and an optional CRM record dump — never failing on missing optional fields,
and never producing a CRM-related file when the CRM integration is disabled. -/
def generateFilesForSandbox (cfg : Config) (wd : GongWebhookData)
    (sfdcAccountId : Option String) : List VirtualFile :=
  (match wd.transcript with
   | some t => [⟨"gong-calls/transcript.txt", t⟩]
   | none => [])
  ++ [⟨"gong-calls/participants.txt", participantsSection wd⟩,
      ⟨"gong-calls/metadata.txt",
        "Title: " ++ renderTitle wd.callData.metaData
          ++ "\nDate: " ++ renderDate wd.callData.metaData
          ++ "\nDuration: " ++ renderDuration wd.callData.metaData
          ++ "\nSystem: " ++ renderSystem wd.callData.metaData⟩]
  ++ (if cfg.salesforce.enabled then
        match sfdcAccountId with
        | some acct => [⟨"salesforce/account.json", "Salesforce account: " ++ acct⟩]
        | none => []
      else [])

/-- Modelled from the spec: `generateFileTree` (the `sandbox-context` module
is not part of the sources).  The FileTree is an ordered sequence of path
strings, one entry per VirtualFile, preserving insertion order. -/
def generateFileTree (files : List VirtualFile) : List String :=
  files.map VirtualFile.path

/-- The validated structured summary produced by the remote agent.
Modelled from the spec: the output schema (`agentOutputSchema`) lives in
the missing `config` module; the spec describes key discussion points,
objections, action items and an overall assessment. -/
structure StructuredSummary where
  keyPoints : List String
  objections : List String
  actionItems : List String
  assessment : String
  deriving DecidableEq, Repr

/-- The remote side effects performed during one call, in the order they
are issued. -/
inductive SandboxEvent where
  | createSandbox (timeoutMs : Nat)
  | mkDir (path : String)
  | writeFiles (files : List VirtualFile)
  | generate
  deriving DecidableEq, Repr

/-- The external platforms as an oracle: each remote operation either
succeeds or fails with an error value, and the imported pure
`generateFilesForSandbox` is a parameter so `prepareCall` can be studied
for any context builder. -/
structure Env where
  createSandboxResult : Except String Unit
  mkDirResult : String → Except String Unit
  generateFiles : GongWebhookData → Option String → List VirtualFile
  writeFilesResult : List VirtualFile → Except String Unit
  generateResult : Except String StructuredSummary

/-- The settings returned by `prepareCall` (the tool set and output schema
are opaque external values; only the instructions string is modelled). -/
structure PreparedSettings where
  instructions : String
  deriving DecidableEq, Repr

/-- The `prepareCall` hook: create the sandbox, create `gong-calls` (and
`salesforce` when the integration is enabled), generate the context files,
write them when the list is non-empty, and build the instructions string.
Returns the result together with the trace of remote operations issued
(operations after a failure are never issued). -/
def prepareCall (env : Env) (cfg : Config) (opts : CallOptions)
    (now : String) : Except String PreparedSettings × List SandboxEvent :=
  let tr0 := [SandboxEvent.createSandbox cfg.sandbox.timeout]
  match env.createSandboxResult with
  | .error e => (.error e, tr0)
  | .ok _ =>
    let tr1 := tr0 ++ [SandboxEvent.mkDir "gong-calls"]
    match env.mkDirResult "gong-calls" with
    | .error e => (.error e, tr1)
    | .ok _ =>
      let step2 :=
        if cfg.salesforce.enabled then
          (env.mkDirResult "salesforce", tr1 ++ [SandboxEvent.mkDir "salesforce"])
        else (.ok (), tr1)
      match step2.1 with
      | .error e => (.error e, step2.2)
      | .ok _ =>
        let files := env.generateFiles opts.webhookData opts.sfdcAccountId
        let step3 :=
          if files.length > 0 then
            (env.writeFilesResult files, step2.2 ++ [SandboxEvent.writeFiles files])
          else (.ok (), step2.2)
        match step3.1 with
        | .error e => (.error e, step3.2)
        | .ok _ =>
          (.ok ⟨composeInstructions cfg opts.webhookData
                  (String.intercalate "\n" (generateFileTree files)) now⟩,
           step3.2)

/-- `runGongAgent`: a single call to `gongSummaryAgent.generate`, which runs
`prepareCall` and then the remote model invocation; any failure is returned
to the caller unchanged. -/
def runGongAgent (env : Env) (cfg : Config) (wd : GongWebhookData)
    (sfdcAccountId : Option String) (now : String) :
    Except String StructuredSummary × List SandboxEvent :=
  match prepareCall env cfg ⟨wd, sfdcAccountId⟩ now with
  | (.error e, tr) => (.error e, SandboxEvent.generate :: tr)
  | (.ok _, tr) => (env.generateResult, SandboxEvent.generate :: tr)

/-- Rank of a remote operation in the issuing order of `prepareCall`:
session creation, then directory creation, then file writes. -/
def eventRank : SandboxEvent → Nat
  | .createSandbox _ => 0
  | .mkDir _ => 1
  | .writeFiles _ => 2
  | .generate => 3

/-- The directory-creation part of the trace of `prepareCall`: the sandbox
session followed by `gong-calls` and, when the CRM integration is enabled,
`salesforce`. -/
def dirTrace (cfg : Config) : List SandboxEvent :=
  [SandboxEvent.createSandbox cfg.sandbox.timeout, SandboxEvent.mkDir "gong-calls"]
    ++ (if cfg.salesforce.enabled then [SandboxEvent.mkDir "salesforce"] else [])

/-- An environment in which every remote operation succeeds and the
context builder returns the given file list. -/
def okEnv (files : List VirtualFile) : Env :=
  ⟨.ok (), fun _ => .ok (), fun _ _ => files, fun _ => .ok (),
   .ok ⟨[], [], [], "fine"⟩⟩

/-- An environment in which every remote operation succeeds and the
context builder is the spec-modelled `generateFilesForSandbox`. -/
def builderEnv (cfg : Config) : Env :=
  ⟨.ok (), fun _ => .ok (), fun w s => generateFilesForSandbox cfg w s,
   fun _ => .ok (), .ok ⟨[], [], [], "fine"⟩⟩

/-- An environment in which sandbox creation fails. -/
def failEnv : Env :=
  ⟨.error "boom", fun _ => .ok (), fun _ _ => [], fun _ => .ok (),
   .ok ⟨[], [], [], "fine"⟩⟩

/-- A configuration with the Salesforce integration enabled. -/
def cfgOn : Config := ⟨"PROMPT", "Acme", ⟨true⟩, ⟨600000⟩⟩

/-- A configuration with the Salesforce integration disabled. -/
def cfgOff : Config := ⟨"PROMPT", "Acme", ⟨false⟩, ⟨600000⟩⟩

/-- A payload with every optional field absent. -/
def wdEmpty : GongWebhookData := ⟨⟨⟨none, none, none, none, none⟩, none⟩, none⟩

/-- Exhaustive case analysis of `prepareCall`: either one of the four
remote stages fails and the trace stops there, or everything succeeds and
the prepared settings are returned. -/
theorem prepareCall_cases (env : Env) (cfg : Config) (opts : CallOptions)
    (now : String) :
    (∃ e, env.createSandboxResult = .error e ∧
      prepareCall env cfg opts now =
        (.error e, [SandboxEvent.createSandbox cfg.sandbox.timeout]))
  ∨ (∃ e, env.createSandboxResult = .ok () ∧
      env.mkDirResult "gong-calls" = .error e ∧
      prepareCall env cfg opts now =
        (.error e, [SandboxEvent.createSandbox cfg.sandbox.timeout,
                    SandboxEvent.mkDir "gong-calls"]))
  ∨ (∃ e, env.createSandboxResult = .ok () ∧
      env.mkDirResult "gong-calls" = .ok () ∧
      cfg.salesforce.enabled = true ∧ env.mkDirResult "salesforce" = .error e ∧
      prepareCall env cfg opts now =
        (.error e, [SandboxEvent.createSandbox cfg.sandbox.timeout,
                    SandboxEvent.mkDir "gong-calls", SandboxEvent.mkDir "salesforce"]))
  ∨ (∃ e, env.createSandboxResult = .ok () ∧
      env.mkDirResult "gong-calls" = .ok () ∧
      (cfg.salesforce.enabled = true → env.mkDirResult "salesforce" = .ok ()) ∧
      0 < (env.generateFiles opts.webhookData opts.sfdcAccountId).length ∧
      env.writeFilesResult (env.generateFiles opts.webhookData opts.sfdcAccountId) = .error e ∧
      prepareCall env cfg opts now =
        (.error e, dirTrace cfg ++
          [SandboxEvent.writeFiles (env.generateFiles opts.webhookData opts.sfdcAccountId)]))
  ∨ (env.createSandboxResult = .ok () ∧
      env.mkDirResult "gong-calls" = .ok () ∧
      (cfg.salesforce.enabled = true → env.mkDirResult "salesforce" = .ok ()) ∧
      (0 < (env.generateFiles opts.webhookData opts.sfdcAccountId).length →
        env.writeFilesResult (env.generateFiles opts.webhookData opts.sfdcAccountId) = .ok ()) ∧
      prepareCall env cfg opts now =
        (.ok ⟨composeInstructions cfg opts.webhookData
                (String.intercalate "\n"
                  (generateFileTree (env.generateFiles opts.webhookData opts.sfdcAccountId))) now⟩,
         dirTrace cfg ++
          (if 0 < (env.generateFiles opts.webhookData opts.sfdcAccountId).length
           then [SandboxEvent.writeFiles (env.generateFiles opts.webhookData opts.sfdcAccountId)]
           else []))) := by
  cases h1 : env.createSandboxResult with
  | error e => exact Or.inl ⟨e, rfl, by simp [prepareCall, h1]⟩
  | ok u =>
    cases u
    cases h2 : env.mkDirResult "gong-calls" with
    | error e => exact Or.inr (Or.inl ⟨e, rfl, rfl, by simp [prepareCall, h1, h2]⟩)
    | ok u2 =>
      cases u2
      cases hsf : cfg.salesforce.enabled with
      | true =>
        cases h3 : env.mkDirResult "salesforce" with
        | error e =>
          exact Or.inr (Or.inr (Or.inl ⟨e, rfl, rfl, rfl, rfl,
            by simp [prepareCall, h1, h2, hsf, h3]⟩))
        | ok u3 =>
          cases u3
          by_cases hf : 0 < (env.generateFiles opts.webhookData opts.sfdcAccountId).length
          · cases h4 : env.writeFilesResult (env.generateFiles opts.webhookData opts.sfdcAccountId) with
            | error e =>
              exact Or.inr (Or.inr (Or.inr (Or.inl ⟨e, rfl, rfl, fun _ => rfl, hf, rfl,
                by simp [prepareCall, h1, h2, hsf, h3, hf, h4, dirTrace]⟩)))
            | ok u4 =>
              cases u4
              exact Or.inr (Or.inr (Or.inr (Or.inr ⟨rfl, rfl, fun _ => rfl, fun _ => rfl,
                by simp [prepareCall, h1, h2, hsf, h3, hf, h4, dirTrace]⟩)))
          · exact Or.inr (Or.inr (Or.inr (Or.inr ⟨rfl, rfl, fun _ => rfl,
              fun hc => absurd hc hf,
              by simp [prepareCall, h1, h2, hsf, h3, hf, dirTrace]⟩)))
      | false =>
        by_cases hf : 0 < (env.generateFiles opts.webhookData opts.sfdcAccountId).length
        · cases h4 : env.writeFilesResult (env.generateFiles opts.webhookData opts.sfdcAccountId) with
          | error e =>
            exact Or.inr (Or.inr (Or.inr (Or.inl ⟨e, rfl, rfl,
              fun hc => Bool.noConfusion hc, hf, rfl,
              by simp [prepareCall, h1, h2, hsf, hf, h4, dirTrace]⟩)))
          | ok u4 =>
            cases u4
            exact Or.inr (Or.inr (Or.inr (Or.inr ⟨rfl, rfl,
              fun hc => Bool.noConfusion hc, fun _ => rfl,
              by simp [prepareCall, h1, h2, hsf, hf, h4, dirTrace]⟩)))
        · exact Or.inr (Or.inr (Or.inr (Or.inr ⟨rfl, rfl,
            fun hc => Bool.noConfusion hc, fun hc => absurd hc hf,
            by simp [prepareCall, h1, h2, hsf, hf, dirTrace]⟩)))

set_option maxRecDepth 10000 in
/-- C1 counterexample: a payload whose single participant entry is missing
the optional `title` field, while every other field is present.  The
composed instructions string contains zero occurrences of `Unknown`, so no
`Unknown` placeholder stands in place of the missing title — the code drops
the title suffix instead of rendering a placeholder. -/
theorem missing_title_has_no_unknown_placeholder :
    (⟨some "Alice", some "Beta", none⟩ : Party).title = none ∧
    countOccurrences "Unknown"
      (composeInstructions ⟨"PROMPT", "Acme", ⟨false⟩, ⟨600000⟩⟩
        ⟨⟨⟨some "Kickoff", some "2024-01-02", some "2024-01-02", some 600, some "Zoom"⟩,
          some [⟨some "Alice", some "Beta", none⟩]⟩, some "t"⟩
        "gong-calls/transcript.txt" "2024-05-05T00:00:00.000Z") = 0 :=
  ⟨rfl, by decide⟩

/-- C1 (amended): rendering the participants never omits an entry and never
fails; a missing `name` or `affiliation` is rendered as the literal
`Unknown` placeholder, while a missing `title` drops the ` - title` suffix
entirely (it is not rendered as `Unknown`). -/
theorem participants_render_fallbacks (parties : List Party) (p : Party) :
    (parties.map renderParty).length = parties.length
  ∧ (p.name = none → ∃ rest, renderParty p = "- Unknown (" ++ rest)
  ∧ (p.affiliation = none → ∃ pre post, renderParty p = pre ++ " (Unknown)" ++ post)
  ∧ (p.title = none →
      renderParty p =
        "- " ++ jsOr p.name "Unknown" ++ " (" ++ jsOr p.affiliation "Unknown" ++ ")") := by
  refine ⟨List.length_map _ _, ?_, ?_, ?_⟩
  · intro h
    refine ⟨jsOr p.affiliation "Unknown" ++ (")" ++ renderTitleSuffix p.title), ?_⟩
    rw [show ("- Unknown (" : String) = "- " ++ "Unknown" ++ " (" from rfl]
    simp [renderParty, h, jsOr, String.append_assoc]
  · intro h
    refine ⟨"- " ++ jsOr p.name "Unknown", renderTitleSuffix p.title, ?_⟩
    rw [show (" (Unknown)" : String) = " (" ++ "Unknown" ++ ")" from rfl]
    simp [renderParty, h, jsOr, String.append_assoc]
  · intro h
    simp [renderParty, h, renderTitleSuffix, String.append_empty]

/-- Witness for the amended C1 theorem at concrete participant entries. -/
theorem participants_render_fallbacks_witness :
    (∃ rest, renderParty ⟨none, some "Beta", some "CEO"⟩ = "- Unknown (" ++ rest)
  ∧ (∃ pre post, renderParty ⟨some "Alice", none, none⟩ = pre ++ " (Unknown)" ++ post)
  ∧ renderParty ⟨some "Alice", some "Beta", none⟩
      = "- " ++ jsOr (some "Alice") "Unknown" ++ " (" ++ jsOr (some "Beta") "Unknown" ++ ")" :=
  ⟨(participants_render_fallbacks [] ⟨none, some "Beta", some "CEO"⟩).2.1 rfl,
   (participants_render_fallbacks [] ⟨some "Alice", none, none⟩).2.2.1 rfl,
   (participants_render_fallbacks [] ⟨some "Alice", some "Beta", none⟩).2.2.2 rfl⟩

/-- C3: for a fixed payload, configuration and file tree, the composed
instructions string is identical across runs except for the embedded
current-date field: there are a prefix and a suffix, independent of the
timestamp, such that each run is exactly `prefix ++ timestamp ++ suffix`. -/
theorem composeInstructions_deterministic_mod_timestamp
    (cfg : Config) (wd : GongWebhookData) (ft now1 now2 : String) :
    ∃ pre post,
      composeInstructions cfg wd ft now1 = pre ++ now1 ++ post ∧
      composeInstructions cfg wd ft now2 = pre ++ now2 ++ post :=
  ⟨_, _, rfl, rfl⟩

/-- C4: every interpolated call-metadata field has a fallback when absent:
title falls back to `Untitled Call`, date falls back through `scheduled`
then `started` to `Unknown`, duration falls back to `Unknown`, and system
falls back to `Unknown`; the renderers are total, so composition never
fails on an absent metadata field. -/
theorem metadata_fallbacks (m : CallMetaData) :
    (m.title = none → renderTitle m = "Untitled Call")
  ∧ (∀ s, m.scheduled = none → m.started = some s → s ≠ "" → renderDate m = s)
  ∧ (m.scheduled = none → m.started = none → renderDate m = "Unknown")
  ∧ (m.duration = none → renderDuration m = "Unknown")
  ∧ (m.system = none → renderSystem m = "Unknown") := by
  refine ⟨?_, ?_, ?_, ?_, ?_⟩ <;> intros <;>
    simp_all [renderTitle, renderDate, renderDuration, renderSystem, jsOr]

/-- Witness for the C4 fallback theorem at concrete metadata values. -/
theorem metadata_fallbacks_witness :
    renderTitle ⟨none, none, none, none, none⟩ = "Untitled Call"
  ∧ renderDate ⟨none, none, some "2024-01-02", none, none⟩ = "2024-01-02"
  ∧ renderDate ⟨none, none, none, none, none⟩ = "Unknown"
  ∧ renderDuration ⟨none, none, none, none, none⟩ = "Unknown"
  ∧ renderSystem ⟨none, none, none, none, none⟩ = "Unknown" :=
  ⟨(metadata_fallbacks _).1 rfl,
   (metadata_fallbacks _).2.1 "2024-01-02" rfl rfl (by decide),
   (metadata_fallbacks _).2.2.1 rfl rfl,
   (metadata_fallbacks _).2.2.2.1 rfl,
   (metadata_fallbacks _).2.2.2.2 rfl⟩

/-- C9: a present positive duration `d` is rendered as
`Math.round(d / 60)` followed by ` minutes`; an absent duration and the
falsy duration `0` are both rendered as the literal `Unknown`. -/
theorem duration_rendering (m : CallMetaData) :
    (∀ d, m.duration = some d → 0 < d →
        renderDuration m = toString (mathRound d 60) ++ " minutes")
  ∧ (m.duration = some 0 → renderDuration m = "Unknown")
  ∧ (m.duration = none → renderDuration m = "Unknown") := by
  refine ⟨?_, ?_, ?_⟩
  · intro d hd hpos
    simp [renderDuration, hd, Nat.pos_iff_ne_zero.mp hpos]
  · intro h; simp [renderDuration, h]
  · intro h; simp [renderDuration, h]

/-- Witness for the C9 duration theorem: 90 seconds round to 2 minutes,
while 0 seconds and an absent duration render as `Unknown`. -/
theorem duration_rendering_witness :
    renderDuration ⟨none, none, none, some 90, none⟩ = "2 minutes"
  ∧ renderDuration ⟨none, none, none, some 0, none⟩ = "Unknown"
  ∧ renderDuration ⟨none, none, none, none, none⟩ = "Unknown" := by
  refine ⟨?_, (duration_rendering _).2.1 rfl, (duration_rendering _).2.2 rfl⟩
  rw [(duration_rendering ⟨none, none, none, some 90, none⟩).1 90 rfl (by decide)]
  decide

/-- C10: when the parties list is entirely absent, preparation does not
fail: the list defaults to empty, the Participants section renders empty,
and the instructions are exactly those of the same payload with an
explicitly empty parties list. -/
theorem parties_absent_defaults (cfg : Config) (wd : GongWebhookData)
    (ft now : String) (h : wd.callData.parties = none) :
    participantsSection wd = ""
  ∧ composeInstructions cfg wd ft now =
      composeInstructions cfg
        { wd with callData := { wd.callData with parties := some [] } } ft now := by
  have hps : participantsSection wd = "" := by
    simp only [participantsSection, h, Option.getD_none, List.map_nil]
    rfl
  have hps2 : participantsSection
      { wd with callData := { wd.callData with parties := some [] } } = "" := rfl
  refine ⟨hps, ?_⟩
  simp [composeInstructions, hps, hps2]

/-- Witness for the C10 theorem at a concrete payload with absent parties. -/
theorem parties_absent_defaults_witness :
    participantsSection ⟨⟨⟨none, none, none, none, none⟩, none⟩, none⟩ = ""
  ∧ composeInstructions ⟨"P", "C", ⟨false⟩, ⟨1⟩⟩
      ⟨⟨⟨none, none, none, none, none⟩, none⟩, none⟩ "ft" "now"
    = composeInstructions ⟨"P", "C", ⟨false⟩, ⟨1⟩⟩
      ⟨⟨⟨none, none, none, none, none⟩, some []⟩, none⟩ "ft" "now" :=
  parties_absent_defaults ⟨"P", "C", ⟨false⟩, ⟨1⟩⟩
    ⟨⟨⟨none, none, none, none, none⟩, none⟩, none⟩ "ft" "now" rfl

/-- The trace of `runGongAgent` is the single `generate` invocation followed
by the remote operations issued while preparing it, and its result is the
preparation error when preparation failed, otherwise the remote generation
result. -/
lemma runGongAgent_eq (env : Env) (cfg : Config) (wd : GongWebhookData)
    (sfdc : Option String) (now : String) :
    runGongAgent env cfg wd sfdc now =
      ((match (prepareCall env cfg ⟨wd, sfdc⟩ now).1 with
        | .error e => .error e
        | .ok _ => env.generateResult),
       SandboxEvent.generate :: (prepareCall env cfg ⟨wd, sfdc⟩ now).2) := by
  rcases hp : prepareCall env cfg ⟨wd, sfdc⟩ now with ⟨r, tr⟩
  cases r <;> simp [runGongAgent, hp]

/-- The `generate` event is never part of the directory-creation trace. -/
lemma generate_not_mem_dirTrace (cfg : Config) :
    SandboxEvent.generate ∉ dirTrace cfg := by
  cases hsf : cfg.salesforce.enabled <;> simp [dirTrace, hsf]

/-- A `writeFiles` event is never part of the directory-creation trace. -/
lemma writeFiles_not_mem_dirTrace (cfg : Config) (fs : List VirtualFile) :
    SandboxEvent.writeFiles fs ∉ dirTrace cfg := by
  cases hsf : cfg.salesforce.enabled <;> simp [dirTrace, hsf]

/-- `prepareCall` never issues a `generate` event itself. -/
lemma generate_not_mem_prepareCall (env : Env) (cfg : Config)
    (opts : CallOptions) (now : String) :
    SandboxEvent.generate ∉ (prepareCall env cfg opts now).2 := by
  rcases prepareCall_cases env cfg opts now with
      ⟨e, h1, hp⟩ | ⟨e, h1, h2, hp⟩ | ⟨e, h1, h2, hsf, h3, hp⟩
    | ⟨e, h1, h2, h3, hf, h4, hp⟩ | ⟨h1, h2, h3, h4, hp⟩
  · simp [hp]
  · simp [hp]
  · simp [hp]
  · simp [hp, generate_not_mem_dirTrace cfg]
  · by_cases hlen : 0 < (env.generateFiles opts.webhookData opts.sfdcAccountId).length <;>
      simp [hp, hlen, generate_not_mem_dirTrace cfg]

/-- A `writeFiles` event in the trace of `prepareCall` carries exactly the
generated file list, which is non-empty, and implies that the session and
all required directories were created successfully first; moreover the
trace is exactly the ordered directory trace followed by the write. -/
lemma writeFiles_mem_prepareCall (env : Env) (cfg : Config)
    (opts : CallOptions) (now : String) (fs : List VirtualFile)
    (h : SandboxEvent.writeFiles fs ∈ (prepareCall env cfg opts now).2) :
    fs = env.generateFiles opts.webhookData opts.sfdcAccountId ∧ 0 < fs.length ∧
    env.createSandboxResult = .ok () ∧ env.mkDirResult "gong-calls" = .ok () ∧
    (cfg.salesforce.enabled = true → env.mkDirResult "salesforce" = .ok ()) ∧
    (prepareCall env cfg opts now).2 = dirTrace cfg ++ [SandboxEvent.writeFiles fs] := by
  rcases prepareCall_cases env cfg opts now with
      ⟨e, h1, hp⟩ | ⟨e, h1, h2, hp⟩ | ⟨e, h1, h2, hsf, h3, hp⟩
    | ⟨e, h1, h2, h3, hf, h4, hp⟩ | ⟨h1, h2, h3, h4, hp⟩
  · simp [hp] at h
  · simp [hp] at h
  · simp [hp] at h
  · simp only [hp] at h ⊢
    simp [List.mem_append, writeFiles_not_mem_dirTrace cfg] at h
    subst h
    exact ⟨rfl, hf, h1, h2, h3, rfl⟩
  · by_cases hlen : 0 < (env.generateFiles opts.webhookData opts.sfdcAccountId).length
    · simp only [hp] at h ⊢
      simp [List.mem_append, writeFiles_not_mem_dirTrace cfg, hlen] at h
      subst h
      exact ⟨rfl, hlen, h1, h2, h3, by simp [hlen]⟩
    · simp [hp, hlen, writeFiles_not_mem_dirTrace cfg] at h

/-- The directory trace is ordered by rank. -/
lemma pairwise_rank_dirTrace (cfg : Config) :
    List.Pairwise (fun a b => eventRank a ≤ eventRank b) (dirTrace cfg) := by
  cases hsf : cfg.salesforce.enabled <;>
    simp [dirTrace, hsf, List.pairwise_cons, eventRank]

/-- The directory trace followed by a write is ordered by rank. -/
lemma pairwise_rank_dirTrace_writeFiles (cfg : Config) (fs : List VirtualFile) :
    List.Pairwise (fun a b => eventRank a ≤ eventRank b)
      (dirTrace cfg ++ [SandboxEvent.writeFiles fs]) := by
  cases hsf : cfg.salesforce.enabled <;>
    simp [dirTrace, hsf, List.pairwise_cons, eventRank]

/-- When the CRM integration is disabled, no file of the spec-modelled
Context Builder lies under the `salesforce` directory. -/
lemma generateFilesForSandbox_no_crm (cfg : Config) (wd : GongWebhookData)
    (sfdc : Option String) (hsf : cfg.salesforce.enabled = false) :
    ∀ f ∈ generateFilesForSandbox cfg wd sfdc,
      "salesforce".data.isPrefixOf f.path.data = false := by
  intro f hf
  cases ht : wd.transcript with
  | some t =>
    simp [generateFilesForSandbox, hsf, ht] at hf
    rcases hf with hf | hf | hf <;> subst hf
    · exact (by decide :
        "salesforce".data.isPrefixOf "gong-calls/transcript.txt".data = false)
    · exact (by decide :
        "salesforce".data.isPrefixOf "gong-calls/participants.txt".data = false)
    · exact (by decide :
        "salesforce".data.isPrefixOf "gong-calls/metadata.txt".data = false)
  | none =>
    simp [generateFilesForSandbox, hsf, ht] at hf
    rcases hf with hf | hf <;> subst hf
    · exact (by decide :
        "salesforce".data.isPrefixOf "gong-calls/participants.txt".data = false)
    · exact (by decide :
        "salesforce".data.isPrefixOf "gong-calls/metadata.txt".data = false)

/-- C2: when the Salesforce integration is disabled in configuration,
preparing the call never creates the `salesforce` directory in the sandbox,
the Context Builder produces no CRM-related file (no path under
`salesforce`) even when a CRM account id is supplied, and no file written
to the sandbox lies under `salesforce`. -/
theorem salesforce_disabled_no_crm (env : Env) (cfg : Config)
    (wd : GongWebhookData) (sfdc : Option String) (now : String)
    (hsf : cfg.salesforce.enabled = false)
    (hgen : env.generateFiles = fun w s => generateFilesForSandbox cfg w s) :
    SandboxEvent.mkDir "salesforce" ∉ (prepareCall env cfg ⟨wd, sfdc⟩ now).2
  ∧ (∀ f ∈ generateFilesForSandbox cfg wd sfdc,
      "salesforce".data.isPrefixOf f.path.data = false)
  ∧ (∀ fs, SandboxEvent.writeFiles fs ∈ (prepareCall env cfg ⟨wd, sfdc⟩ now).2 →
      ∀ f ∈ fs, "salesforce".data.isPrefixOf f.path.data = false) := by
  refine ⟨?_, generateFilesForSandbox_no_crm cfg wd sfdc hsf, ?_⟩
  · rcases prepareCall_cases env cfg ⟨wd, sfdc⟩ now with
        ⟨e, h1, hp⟩ | ⟨e, h1, h2, hp⟩ | ⟨e, h1, h2, hsf2, h3, hp⟩
      | ⟨e, h1, h2, h3, hf, h4, hp⟩ | ⟨h1, h2, h3, h4, hp⟩
    · simp [hp]
    · simp [hp]
    · rw [hsf2] at hsf; exact Bool.noConfusion hsf
    · simp [hp, dirTrace, hsf]
    · by_cases hlen : 0 < (env.generateFiles wd sfdc).length <;>
        simp [hp, hlen, dirTrace, hsf]
  · intro fs hmem
    have hw := writeFiles_mem_prepareCall env cfg ⟨wd, sfdc⟩ now fs hmem
    rw [hw.1, hgen]
    exact generateFilesForSandbox_no_crm cfg wd sfdc hsf

/-- Witness for the C2 theorem: disabled configuration, account id
supplied, all remote operations succeeding. -/
theorem salesforce_disabled_no_crm_witness :
    SandboxEvent.mkDir "salesforce" ∉
      (prepareCall (builderEnv cfgOff) cfgOff ⟨wdEmpty, some "001ACC"⟩ "T").2
  ∧ (∀ f ∈ generateFilesForSandbox cfgOff wdEmpty (some "001ACC"),
      "salesforce".data.isPrefixOf f.path.data = false) :=
  have h := salesforce_disabled_no_crm (builderEnv cfgOff)
    cfgOff wdEmpty (some "001ACC") "T" rfl rfl
  ⟨h.1, h.2.1⟩

/-- C5: `runGongAgent` performs exactly one agent invocation (one `generate`
event) with no retry, and a failure of any remote stage — sandbox creation,
directory creation, file write, or generation — propagates to the caller
unchanged; when every stage succeeds, the result is exactly the remote
generation result. -/
theorem runGongAgent_single_invocation (env : Env) (cfg : Config)
    (wd : GongWebhookData) (sfdc : Option String) (now : String) :
    ((runGongAgent env cfg wd sfdc now).2.count SandboxEvent.generate = 1)
  ∧ (∀ e, env.createSandboxResult = .error e →
      (runGongAgent env cfg wd sfdc now).1 = .error e)
  ∧ (∀ e, env.createSandboxResult = .ok () →
      env.mkDirResult "gong-calls" = .error e →
      (runGongAgent env cfg wd sfdc now).1 = .error e)
  ∧ (∀ e, env.createSandboxResult = .ok () →
      env.mkDirResult "gong-calls" = .ok () →
      cfg.salesforce.enabled = true → env.mkDirResult "salesforce" = .error e →
      (runGongAgent env cfg wd sfdc now).1 = .error e)
  ∧ (∀ e, env.createSandboxResult = .ok () →
      env.mkDirResult "gong-calls" = .ok () →
      (cfg.salesforce.enabled = true → env.mkDirResult "salesforce" = .ok ()) →
      0 < (env.generateFiles wd sfdc).length →
      env.writeFilesResult (env.generateFiles wd sfdc) = .error e →
      (runGongAgent env cfg wd sfdc now).1 = .error e)
  ∧ (env.createSandboxResult = .ok () →
      env.mkDirResult "gong-calls" = .ok () →
      (cfg.salesforce.enabled = true → env.mkDirResult "salesforce" = .ok ()) →
      (0 < (env.generateFiles wd sfdc).length →
        env.writeFilesResult (env.generateFiles wd sfdc) = .ok ()) →
      (runGongAgent env cfg wd sfdc now).1 = env.generateResult) := by
  refine ⟨?_, ?_, ?_, ?_, ?_, ?_⟩
  · rw [runGongAgent_eq]
    simp [List.count_cons_self,
      List.count_eq_zero.mpr (generate_not_mem_prepareCall env cfg ⟨wd, sfdc⟩ now)]
  · intro e h1
    rcases prepareCall_cases env cfg ⟨wd, sfdc⟩ now with
        ⟨e1, c1, hp⟩ | ⟨e1, c1, c2, hp⟩ | ⟨e1, c1, c2, csf, c3, hp⟩
      | ⟨e1, c1, c2, c3, cf, c4, hp⟩ | ⟨c1, c2, c3, c4, hp⟩ <;>
      rw [runGongAgent_eq, hp] <;> simp_all
  · intro e h1 h2
    rcases prepareCall_cases env cfg ⟨wd, sfdc⟩ now with
        ⟨e1, c1, hp⟩ | ⟨e1, c1, c2, hp⟩ | ⟨e1, c1, c2, csf, c3, hp⟩
      | ⟨e1, c1, c2, c3, cf, c4, hp⟩ | ⟨c1, c2, c3, c4, hp⟩ <;>
      rw [runGongAgent_eq, hp] <;> simp_all
  · intro e h1 h2 hsf h3
    rcases prepareCall_cases env cfg ⟨wd, sfdc⟩ now with
        ⟨e1, c1, hp⟩ | ⟨e1, c1, c2, hp⟩ | ⟨e1, c1, c2, csf, c3, hp⟩
      | ⟨e1, c1, c2, c3, cf, c4, hp⟩ | ⟨c1, c2, c3, c4, hp⟩ <;>
      rw [runGongAgent_eq, hp] <;> simp_all
  · intro e h1 h2 h3 hf h4
    rcases prepareCall_cases env cfg ⟨wd, sfdc⟩ now with
        ⟨e1, c1, hp⟩ | ⟨e1, c1, c2, hp⟩ | ⟨e1, c1, c2, csf, c3, hp⟩
      | ⟨e1, c1, c2, c3, cf, c4, hp⟩ | ⟨c1, c2, c3, c4, hp⟩ <;>
      rw [runGongAgent_eq, hp] <;> simp_all
  · intro h1 h2 h3 h4
    rcases prepareCall_cases env cfg ⟨wd, sfdc⟩ now with
        ⟨e1, c1, hp⟩ | ⟨e1, c1, c2, hp⟩ | ⟨e1, c1, c2, csf, c3, hp⟩
      | ⟨e1, c1, c2, c3, cf, c4, hp⟩ | ⟨c1, c2, c3, c4, hp⟩ <;>
      rw [runGongAgent_eq, hp] <;> simp_all

/-- Witness for the C5 theorem: a failing sandbox creation surfaces its
error unchanged with exactly one invocation; an all-success run returns
the generation result. -/
theorem runGongAgent_single_invocation_witness :
    ((runGongAgent failEnv cfgOff wdEmpty none "T").2.count SandboxEvent.generate = 1)
  ∧ (runGongAgent failEnv cfgOff wdEmpty none "T").1 = .error "boom"
  ∧ (runGongAgent (okEnv []) cfgOff wdEmpty none "T").1 =
      .ok ⟨[], [], [], "fine"⟩ :=
  ⟨(runGongAgent_single_invocation failEnv cfgOff wdEmpty none "T").1,
   (runGongAgent_single_invocation failEnv cfgOff wdEmpty none "T").2.1 "boom" rfl,
   (runGongAgent_single_invocation (okEnv []) cfgOff wdEmpty none "T").2.2.2.2.2
     rfl rfl (fun _ => rfl) (fun _ => rfl)⟩

/-- C7: the remote side effects of call preparation occur in a fixed
order — the trace of `prepareCall` is always sorted by stage rank (session
creation, then directory creation, then file writes) — and a file write
occurs only after the session and the `gong-calls` directory (and, when
the CRM integration is enabled, the `salesforce` directory) have been
created successfully. -/
theorem prepareCall_effect_order (env : Env) (cfg : Config)
    (opts : CallOptions) (now : String) :
    List.Pairwise (fun a b => eventRank a ≤ eventRank b)
      (prepareCall env cfg opts now).2
  ∧ (∀ fs, SandboxEvent.writeFiles fs ∈ (prepareCall env cfg opts now).2 →
      env.createSandboxResult = .ok ()
      ∧ env.mkDirResult "gong-calls" = .ok ()
      ∧ SandboxEvent.createSandbox cfg.sandbox.timeout ∈ (prepareCall env cfg opts now).2
      ∧ SandboxEvent.mkDir "gong-calls" ∈ (prepareCall env cfg opts now).2
      ∧ (cfg.salesforce.enabled = true →
          env.mkDirResult "salesforce" = .ok ()
          ∧ SandboxEvent.mkDir "salesforce" ∈ (prepareCall env cfg opts now).2)) := by
  constructor
  · rcases prepareCall_cases env cfg opts now with
        ⟨e, h1, hp⟩ | ⟨e, h1, h2, hp⟩ | ⟨e, h1, h2, hsf, h3, hp⟩
      | ⟨e, h1, h2, h3, hf, h4, hp⟩ | ⟨h1, h2, h3, h4, hp⟩
    · simp [hp]
    · simp [hp, List.pairwise_cons, eventRank]
    · simp [hp, List.pairwise_cons, eventRank]
    · rw [hp]
      exact pairwise_rank_dirTrace_writeFiles cfg _
    · rw [hp]
      by_cases hlen : 0 < (env.generateFiles opts.webhookData opts.sfdcAccountId).length
      · simp only [hlen, if_pos]
        exact pairwise_rank_dirTrace_writeFiles cfg _
      · simp only [hlen, if_neg, List.append_nil, not_false_eq_true]
        exact pairwise_rank_dirTrace cfg
  · intro fs hmem
    have hw := writeFiles_mem_prepareCall env cfg opts now fs hmem
    refine ⟨hw.2.2.1, hw.2.2.2.1, ?_, ?_, ?_⟩
    · rw [hw.2.2.2.2.2]
      cases hsf : cfg.salesforce.enabled <;> simp [dirTrace, hsf]
    · rw [hw.2.2.2.2.2]
      cases hsf : cfg.salesforce.enabled <;> simp [dirTrace, hsf]
    · intro hsf
      refine ⟨hw.2.2.2.2.1 hsf, ?_⟩
      rw [hw.2.2.2.2.2]
      simp [dirTrace, hsf]

/-- Witness for the C7 theorem: an all-success run with a non-empty file
list writes files only after the session and both directories exist. -/
theorem prepareCall_effect_order_witness :
    List.Pairwise (fun a b => eventRank a ≤ eventRank b)
      (prepareCall (okEnv [⟨"gong-calls/transcript.txt", "hi"⟩]) cfgOn
        ⟨wdEmpty, none⟩ "T").2
  ∧ SandboxEvent.createSandbox cfgOn.sandbox.timeout ∈
      (prepareCall (okEnv [⟨"gong-calls/transcript.txt", "hi"⟩]) cfgOn
        ⟨wdEmpty, none⟩ "T").2
  ∧ SandboxEvent.mkDir "gong-calls" ∈
      (prepareCall (okEnv [⟨"gong-calls/transcript.txt", "hi"⟩]) cfgOn
        ⟨wdEmpty, none⟩ "T").2
  ∧ SandboxEvent.mkDir "salesforce" ∈
      (prepareCall (okEnv [⟨"gong-calls/transcript.txt", "hi"⟩]) cfgOn
        ⟨wdEmpty, none⟩ "T").2 :=
  have h := prepareCall_effect_order (okEnv [⟨"gong-calls/transcript.txt", "hi"⟩])
    cfgOn ⟨wdEmpty, none⟩ "T"
  have hw := h.2 [⟨"gong-calls/transcript.txt", "hi"⟩] (by decide)
  ⟨h.1, hw.2.2.1, hw.2.2.2.1, (hw.2.2.2.2 rfl).2⟩

/-- C8: under successful session and directory creation, `sandbox.writeFiles`
is invoked exactly when the generated file list is non-empty; with an empty
list no write event occurs, yet preparation completes and returns prepared
settings whose instructions embed an empty file tree. -/
theorem writeFiles_iff_nonempty (env : Env) (cfg : Config)
    (wd : GongWebhookData) (sfdc : Option String) (now : String)
    (h1 : env.createSandboxResult = .ok ())
    (h2 : env.mkDirResult "gong-calls" = .ok ())
    (h3 : cfg.salesforce.enabled = true → env.mkDirResult "salesforce" = .ok ()) :
    (SandboxEvent.writeFiles (env.generateFiles wd sfdc) ∈
        (prepareCall env cfg ⟨wd, sfdc⟩ now).2
      ↔ env.generateFiles wd sfdc ≠ [])
  ∧ (env.generateFiles wd sfdc = [] →
      (∀ fs, SandboxEvent.writeFiles fs ∉ (prepareCall env cfg ⟨wd, sfdc⟩ now).2)
      ∧ (prepareCall env cfg ⟨wd, sfdc⟩ now).1 =
          .ok ⟨composeInstructions cfg wd "" now⟩) := by
  rcases prepareCall_cases env cfg ⟨wd, sfdc⟩ now with
      ⟨e, c1, hp⟩ | ⟨e, c1, c2, hp⟩ | ⟨e, c1, c2, csf, c3, hp⟩
    | ⟨e, c1, c2, c3, cf, c4, hp⟩ | ⟨c1, c2, c3, c4, hp⟩
  · rw [c1] at h1; exact Except.noConfusion h1
  · rw [c2] at h2; exact Except.noConfusion h2
  · have := h3 csf; rw [c3] at this; exact Except.noConfusion this
  · dsimp only at cf c4 hp
    have hne : env.generateFiles wd sfdc ≠ [] := by
      intro hc; rw [hc] at cf; simp at cf
    constructor
    · constructor
      · intro _; exact hne
      · intro _
        rw [hp]
        simp [List.mem_append]
    · intro hempty
      exact absurd hempty hne
  · dsimp only at c4 hp
    by_cases hlen : 0 < (env.generateFiles wd sfdc).length
    · constructor
      · constructor
        · intro _; exact List.length_pos.mp hlen
        · intro _
          rw [hp]
          simp [hlen, List.mem_append]
      · intro hempty
        rw [hempty] at hlen
        exact absurd hlen (by simp)
    · have hnil : env.generateFiles wd sfdc = [] :=
        List.eq_nil_of_length_eq_zero (Nat.eq_zero_of_not_pos hlen)
      constructor
      · rw [hp]
        simp [hlen, writeFiles_not_mem_dirTrace cfg, hnil]
      · intro _
        refine ⟨?_, ?_⟩
        · intro fs
          rw [hp]
          simp [hlen, writeFiles_not_mem_dirTrace cfg]
        · simp only [hp, hnil, generateFileTree, List.map_nil]
          rfl

/-- Witness for the C8 theorem: with an empty generated list no write event
occurs and preparation completes; with a non-empty list the write event is
present. -/
theorem writeFiles_iff_nonempty_witness :
    (∀ fs, SandboxEvent.writeFiles fs ∉
        (prepareCall (okEnv []) cfgOff ⟨wdEmpty, none⟩ "T").2)
  ∧ (prepareCall (okEnv []) cfgOff ⟨wdEmpty, none⟩ "T").1 =
      .ok ⟨composeInstructions cfgOff wdEmpty "" "T"⟩
  ∧ SandboxEvent.writeFiles [⟨"a", "b"⟩] ∈
      (prepareCall (okEnv [⟨"a", "b"⟩]) cfgOff ⟨wdEmpty, none⟩ "T").2 :=
  have he := (writeFiles_iff_nonempty (okEnv []) cfgOff wdEmpty none "T"
    rfl rfl (fun _ => rfl)).2 rfl
  have hn := (writeFiles_iff_nonempty (okEnv [⟨"a", "b"⟩]) cfgOff wdEmpty none "T"
    rfl rfl (fun _ => rfl)).1.mpr (by decide)
  ⟨he.1, he.2, hn⟩

/-- C6: the FileTree listing derived from the generated VirtualFiles has
exactly one entry — the path — per VirtualFile, in the same insertion
order, and the VirtualFile list is non-empty whenever transcript content
is present. -/
theorem fileTree_one_entry_per_file (cfg : Config) (wd : GongWebhookData)
    (sfdc : Option String) :
    (∀ i : Nat, (generateFileTree (generateFilesForSandbox cfg wd sfdc))[i]? =
        ((generateFilesForSandbox cfg wd sfdc)[i]?).map VirtualFile.path)
  ∧ (∀ t, wd.transcript = some t → generateFilesForSandbox cfg wd sfdc ≠ []) := by
  constructor
  · intro i
    simp [generateFileTree, List.getElem?_map]
  · intro t ht
    simp [generateFilesForSandbox, ht]

/-- Witness for the C6 theorem at a payload with transcript content. -/
theorem fileTree_one_entry_per_file_witness :
    (generateFileTree (generateFilesForSandbox cfgOff
        ⟨⟨⟨none, none, none, none, none⟩, none⟩, some "hello"⟩ none))[0]? =
      ((generateFilesForSandbox cfgOff
        ⟨⟨⟨none, none, none, none, none⟩, none⟩, some "hello"⟩ none)[0]?).map
          VirtualFile.path
  ∧ generateFilesForSandbox cfgOff
      ⟨⟨⟨none, none, none, none, none⟩, none⟩, some "hello"⟩ none ≠ [] :=
  ⟨(fileTree_one_entry_per_file cfgOff
      ⟨⟨⟨none, none, none, none, none⟩, none⟩, some "hello"⟩ none).1 0,
   (fileTree_one_entry_per_file cfgOff
      ⟨⟨⟨none, none, none, none, none⟩, none⟩, some "hello"⟩ none).2 "hello" rfl⟩
